import Mathlib

/-!
Shallow embedding of the Gommerce checkout / order flow.

Sources embedded:
* types (Product, CartItem, CartCheckoutPayload, Order, OrderItem) — types package;
* handleCheckout — services/cart routes (the checkout orchestrator);
* GetProductsByIDs — services/products store;
* CreateOrder / CreateOrderItem / GetOrders — services/cart store;
* WriteError / WriteJSON / http.Error response shapes — utils package.

Modelling conventions:
* Go `int` fields become `Int`; timestamps become `Int` (an abstract clock value).
* Go `float64` prices become `Rat`; the source computes the total with float
  arithmetic, here modelled with exact rationals (the spec itself allows
  "double-precision (or fixed-point decimal) arithmetic").
* Database effects are made explicit: the handler returns, next to the HTTP
  response, the list of catalog reads and successfully persisted row inserts.
* Store outcomes (a failing insert, a failing query) are inputs of the model:
  `StoreBehavior` fixes the result of each store call of one request.
* A Go `map` is modelled by an association list built in insertion order, with
  last-wins writes; the unspecified iteration order of the final
  map-to-slice conversion in `GetOrders` is an explicit parameter (a key list).
-/

namespace Gommerce

/-- Product row (types.Product): id, name, description, image, price, quantity,
createdAt. -/
structure Product where
  id : Int
  name : String
  description : String
  image : String
  price : Rat
  quantity : Int
  createdAt : Int
deriving Repr, DecidableEq

/-- Go zero value of Product (what a map access returns for a missing key). -/
def zeroProduct : Product :=
  { id := 0, name := "", description := "", image := "", price := 0,
    quantity := 0, createdAt := 0 }

/-- Cart item of the checkout payload (types.CartItem): productID, quantity.
No validate tags constrain either field. -/
structure CartItem where
  productID : Int
  quantity : Int
deriving Repr, DecidableEq

/-- Checkout payload (types.CartCheckoutPayload): Items with validate tag
"required,min=1", Address with validate tag "required". -/
structure CartCheckoutPayload where
  items : List CartItem
  address : String
deriving Repr, DecidableEq

/-- Order item row (types.OrderItem). `product` is the optional embedded
snapshot populated only by the read path. -/
structure OrderItem where
  id : Int
  orderID : Int
  productID : Int
  quantity : Int
  price : Rat
  createdAt : Int
  product : Option Product
deriving Repr, DecidableEq

/-- Order row (types.Order) with its owned items collection. -/
structure Order where
  id : Int
  userID : Int
  total : Rat
  status : String
  address : String
  createdAt : Int
  items : List OrderItem
deriving Repr, DecidableEq

/-- Database effect performed by the checkout handler: one catalog read, or one
successfully persisted row insert. -/
inductive Effect where
  | readProducts (ids : List Int)
  | insertOrder (o : Order)
  | insertOrderItem (oi : OrderItem)
deriving Repr, DecidableEq

/-- True for the effects that write a row. -/
def Effect.isWrite : Effect → Bool
  | .readProducts _ => false
  | .insertOrder _ => true
  | .insertOrderItem _ => true

/-- True exactly for order-item inserts. -/
def Effect.isItemInsert : Effect → Bool
  | .insertOrderItem _ => true
  | _ => false

/-- Body of an HTTP response. `plainText` is what Go's http.Error writes
(Content-Type text/plain); `jsonError` is what utils.WriteError writes (a JSON
object with a single "error" field); the json* constructors are the
utils.WriteJSON success envelopes of the order endpoints. -/
inductive Body where
  | plainText (s : String)
  | jsonError (msg : String)
  | jsonSuccess (message : String) (order : Order)
  | jsonList (message : String) (orders : List Order)
deriving Repr, DecidableEq

/-- HTTP response: status code and body. -/
structure Response where
  status : Nat
  body : Body
deriving Repr, DecidableEq

/-- Outcome of each store call made during one checkout request:
result of GetProductsByIDs (an optional query error), result of CreateOrder
(error, or the generated order id), and the outcome of each successive
CreateOrderItem call (none = success). -/
structure StoreBehavior where
  getProductsErr : Option String
  createOrderResult : Except String Int
  itemOutcomes : List (Option String)
deriving Repr

/-- GetProductsByIDs (products store): `SELECT * FROM products WHERE id IN
(ids)`, returning each table row whose id occurs in `ids`, in table order; an
empty id list short-circuits to an empty result. -/
def GetProductsByIDs (table : List Product) (ids : List Int) : List Product :=
  if ids.isEmpty then []
  else table.filter (fun p => decide (p.id ∈ ids))

/-- Go map built by `for _, product := range products { productMap[product.ID]
= product }`: lookup returns the last inserted product with the given id. -/
def productMapLookup (products : List Product) (pid : Int) : Option Product :=
  products.reverse.find? (fun p => p.id == pid)

/-- utils.Validate.Struct on CartCheckoutPayload: Items must be non-empty
(required,min=1) and Address non-empty (required). The exact go-playground
message text is abbreviated; only which payloads fail matters here. -/
def validateStruct (cart : CartCheckoutPayload) : Option String :=
  if cart.items.isEmpty then
    some "Field validation for Items failed on the min tag"
  else if cart.address == "" then
    some "Field validation for Address failed on the required tag"
  else none

/-- Stock check and running total of handleCheckout: iterate cart items in
input order; a missing product map entry fails with 400, a requested quantity
above the product's stock fails with 400 naming the product id; otherwise the
item contributes price times quantity to the accumulator. -/
def checkItemsAux (products : List Product) (total : Rat) :
    List CartItem → Except (Nat × String) Rat
  | [] => .ok total
  | item :: rest =>
    match productMapLookup products item.productID with
    | none =>
        .error (400, "product with ID " ++ toString item.productID ++ " not found")
    | some product =>
        if product.quantity < item.quantity then
          .error (400, "insufficient quantity for product " ++ toString item.productID)
        else
          checkItemsAux products (total + product.price * (item.quantity : Rat)) rest

/-- Order item built by the write loop of handleCheckout: the product comes
from an unchecked map access (Go zero value when absent), and the persisted
row carries the map value's id, the requested quantity and the captured
price; its own id is never read back (LastInsertId is not consulted). -/
def mkOrderItem (products : List Product) (orderID : Int) (item : CartItem) :
    OrderItem :=
  let product := (productMapLookup products item.productID).getD zeroProduct
  { id := 0, orderID := orderID, productID := product.id,
    quantity := item.quantity, price := product.price, createdAt := 0,
    product := none }

/-- Per-item write loop of handleCheckout: the k-th CreateOrderItem call takes
the k-th entry of the outcome list (missing entries count as success); the
first failing call stops the loop, and only the rows of the preceding
successful calls are persisted. -/
def itemsLoop (products : List Product) (orderID : Int) :
    List CartItem → List (Option String) → Option String × List Effect
  | [], _ => (none, [])
  | item :: rest, outs =>
    match outs.headD none with
    | some e => (some e, [])
    | none =>
        let r := itemsLoop products orderID rest outs.tail
        (r.1, Effect.insertOrderItem (mkOrderItem products orderID item) :: r.2)

/-- Checkout body after authentication and JSON parsing (handleCheckout):
validate the payload, collect one product id per cart item (no
deduplication), fetch the products, compare counts, run the stock check and
total, insert the order header, then insert each order item. Every error is
written with http.Error (a plain-text body). Returns the response and the
list of database effects performed. -/
def checkout (catalog : List Product) (sb : StoreBehavior) (userId : Int)
    (cart : CartCheckoutPayload) (now : Int) : Response × List Effect :=
  match validateStruct cart with
  | some e => (⟨400, .plainText e⟩, [])
  | none =>
    let productIDs := cart.items.map (fun item => item.productID)
    match sb.getProductsErr with
    | some e => (⟨500, .plainText e⟩, [.readProducts productIDs])
    | none =>
      let products := GetProductsByIDs catalog productIDs
      let log : List Effect := [.readProducts productIDs]
      if products.length ≠ productIDs.length then
        (⟨400, .plainText "one or more products not found"⟩, log)
      else
        match checkItemsAux products 0 cart.items with
        | .error es => (⟨es.1, .plainText es.2⟩, log)
        | .ok total =>
          match sb.createOrderResult with
          | .error e => (⟨500, .plainText e⟩, log)
          | .ok orderID =>
            let order : Order :=
              { id := orderID, userID := userId, total := total,
                status := "pending", address := cart.address,
                createdAt := now, items := [] }
            let log := log ++ [Effect.insertOrder order]
            match itemsLoop products orderID cart.items sb.itemOutcomes with
            | (some e, effs) => (⟨500, .plainText e⟩, log ++ effs)
            | (none, effs) =>
                (⟨201, .jsonSuccess "order created successfully" order⟩,
                 log ++ effs)

/-- handleCheckout: an authentication failure is answered with http.Error and
status 401 before anything else happens; otherwise the checkout body runs
with the authenticated user id. -/
def handleCheckout (authResult : Except String Int)
    (cart : CartCheckoutPayload) (catalog : List Product)
    (sb : StoreBehavior) (now : Int) : Response × List Effect :=
  match authResult with
  | .error e => (⟨401, .plainText e⟩, [])
  | .ok uid => checkout catalog sb uid cart now

/-- handleGetOrders: 401 plain text on auth failure, 500 plain text on a store
error, else the 200 success envelope. -/
def handleGetOrders (authResult : Except String Int)
    (ordersResult : Except String (List Order)) : Response :=
  match authResult with
  | .error e => ⟨401, .plainText e⟩
  | .ok _ =>
    match ordersResult with
    | .error e => ⟨500, .plainText e⟩
    | .ok orders => ⟨200, .jsonList "orders fetched successfully" orders⟩

/-- Joined row delivered by the GetOrders query (orders LEFT JOIN order_items
LEFT JOIN products). Columns that can be NULL under the left joins are
Options; the order columns themselves are never null. -/
structure RawRow where
  oId : Int
  oUserId : Int
  oTotal : Rat
  oStatus : String
  oAddress : String
  oCreatedAt : Int
  itemId : Option Int
  oiOrderId : Option Int
  oiProductId : Option Int
  oiQuantity : Option Int
  oiPrice : Option Rat
  pId : Option Int
  pName : Option String
  pDescription : Option String
  pImage : Option String
  pPrice : Option Rat
  pQuantity : Option Int
  pCreatedAt : Option Int
deriving Repr, DecidableEq

/-- Result of rows.Scan for one joined row. The item id and all product
columns are scanned into sql.Null* destinations and never fail; the remaining
order-item columns are scanned into plain int / float64 fields, so a NULL
there makes Scan fail. `itemId` keeps its nullability for the Valid check;
the product snapshot is assembled from the Null* columns exactly when the
joined product id is Valid, other invalid product columns contributing their
Go zero values. -/
structure ScannedRow where
  order : Order
  itemId : Option Int
  orderItem : OrderItem
deriving Repr, DecidableEq

/-- rows.Scan on one joined row: fails with the database/sql conversion error
when a non-nullable destination receives NULL (an order row with no items),
otherwise produces the order (with a fresh empty items collection deferred to
the fold), the nullable item id, and the order item with its optional product
snapshot. -/
def scanRow (r : RawRow) : Except String ScannedRow :=
  match r.oiOrderId, r.oiProductId, r.oiQuantity, r.oiPrice with
  | some oiOrderId, some oiProductId, some oiQuantity, some oiPrice =>
    let product : Option Product :=
      match r.pId with
      | some pid =>
          some { id := pid, name := r.pName.getD "",
                 description := r.pDescription.getD "",
                 image := r.pImage.getD "", price := r.pPrice.getD 0,
                 quantity := r.pQuantity.getD 0,
                 createdAt := r.pCreatedAt.getD 0 }
      | none => none
    .ok { order := { id := r.oId, userID := r.oUserId, total := r.oTotal,
                     status := r.oStatus, address := r.oAddress,
                     createdAt := r.oCreatedAt, items := [] },
          itemId := r.itemId,
          orderItem := { id := r.itemId.getD 0, orderID := oiOrderId,
                         productID := oiProductId, quantity := oiQuantity,
                         price := oiPrice, createdAt := 0,
                         product := product } }
  | _, _, _, _ => .error "sql: converting NULL to int is unsupported"

/-- Lookup in the association-list model of the Go map ordersMap. -/
def assocFind (m : List (Int × Order)) (k : Int) : Option Order :=
  (m.find? (fun kv => kv.1 == k)).map (fun kv => kv.2)

/-- Append an item to the mapped order with the given key. -/
def assocAppendItem (m : List (Int × Order)) (k : Int) (oi : OrderItem) :
    List (Int × Order) :=
  m.map (fun kv =>
    if kv.1 == k then (kv.1, { kv.2 with items := kv.2.items ++ [oi] })
    else kv)

/-- Row fold of GetOrders: scan each row; on first sight of an order id insert
the order with an empty items collection; when the item id is Valid append
the reconstructed order item to that order's collection. The association
list records the map's contents (insertion order is kept only as bookkeeping;
iteration order is supplied separately). -/
def foldRows : List RawRow → List (Int × Order) →
    Except String (List (Int × Order))
  | [], m => .ok m
  | r :: rest, m =>
    match scanRow r with
    | .error e => .error e
    | .ok s =>
      let m1 := match assocFind m s.order.id with
        | none => m ++ [(s.order.id, s.order)]
        | some _ => m
      let m2 := match s.itemId with
        | some _ => assocAppendItem m1 s.order.id s.orderItem
        | none => m1
      foldRows rest m2

/-- Final map-to-slice conversion of GetOrders: `for _, order := range
ordersMap` visits keys in an unspecified order, modelled by the explicit key
sequence `iter`. -/
def mapToSlice (m : List (Int × Order)) (iter : List Int) : List Order :=
  iter.filterMap (fun k => assocFind m k)

/-- GetOrders (cart store): fold the joined rows into the keyed map, then
convert the map to a slice in map-iteration order. -/
def GetOrders (rows : List RawRow) (iter : List Int) :
    Except String (List Order) :=
  match foldRows rows [] with
  | .error e => .error e
  | .ok m => .ok (mapToSlice m iter)

/-- Ordering required of the output: creation time descending, ties broken by
ascending order id (the ORDER BY of the GetOrders query). -/
def isSortedOrders : List Order → Bool
  | [] => true
  | [_] => true
  | a :: b :: rest =>
      (decide (b.createdAt < a.createdAt) ||
        (a.createdAt == b.createdAt && decide (a.id ≤ b.id)))
      && isSortedOrders (b :: rest)

/-- Row sequence as delivered by the query's ORDER BY o.createdAt DESC,
o.id ASC. -/
def rowsSortedByQuery : List RawRow → Bool
  | [] => true
  | [_] => true
  | a :: b :: rest =>
      (decide (b.oCreatedAt < a.oCreatedAt) ||
        (a.oCreatedAt == b.oCreatedAt && decide (a.oId ≤ b.oId)))
      && rowsSortedByQuery (b :: rest)

/-- Specification-side total: the sum over all cart items, in input order, of
the matching fetched product's price times the item's requested quantity. -/
def cartTotalSpec (products : List Product) (items : List CartItem) : Rat :=
  (items.map (fun item =>
    ((productMapLookup products item.productID).getD zeroProduct).price *
      (item.quantity : Rat))).sum

/-- Shared fixture: product 1, price 10, stock 5. -/
def productFx : Product :=
  { id := 1, name := "p", description := "", image := "", price := 10,
    quantity := 5, createdAt := 0 }

/-- Shared fixture: all store calls succeed, CreateOrder yields id 42. -/
def sbOkFx : StoreBehavior :=
  { getProductsErr := none, createOrderResult := .ok 42, itemOutcomes := [] }

/-- Shared fixture: checkout payload with one item, product 1, quantity 2. -/
def cartFx : CartCheckoutPayload :=
  { items := [{ productID := 1, quantity := 2 }], address := "addr" }

/-- Shared fixture: the order created by the fixture checkout. -/
def orderFx : Order :=
  { id := 42, userID := 7, total := 20, status := "pending",
    address := "addr", createdAt := 0, items := [] }

/-- Fixture row: order 2, created at time 2, one item priced 5 with a live
product snapshot. -/
def rowFx2 : RawRow :=
  { oId := 2, oUserId := 7, oTotal := 5, oStatus := "pending", oAddress := "a",
    oCreatedAt := 2, itemId := some 21, oiOrderId := some 2,
    oiProductId := some 1, oiQuantity := some 1, oiPrice := some 5,
    pId := some 1, pName := some "p", pDescription := some "",
    pImage := some "", pPrice := some 5, pQuantity := some 3,
    pCreatedAt := some 0 }

/-- Fixture row: order 1, created at time 1, one item priced 6 with a live
product snapshot. -/
def rowFx1 : RawRow :=
  { oId := 1, oUserId := 7, oTotal := 6, oStatus := "pending", oAddress := "a",
    oCreatedAt := 1, itemId := some 11, oiOrderId := some 1,
    oiProductId := some 1, oiQuantity := some 1, oiPrice := some 6,
    pId := some 1, pName := some "p", pDescription := some "",
    pImage := some "", pPrice := some 5, pQuantity := some 3,
    pCreatedAt := some 0 }

/-- Fixture: the product snapshot reconstructed from rowFx1 / rowFx2. -/
def productSnapFx : Product :=
  { id := 1, name := "p", description := "", image := "", price := 5,
    quantity := 3, createdAt := 0 }

/-- Fixture: the Order reconstructed from rowFx1 by GetOrders. -/
def orderFx1 : Order :=
  { id := 1, userID := 7, total := 6, status := "pending", address := "a",
    createdAt := 1,
    items := [{ id := 11, orderID := 1, productID := 1, quantity := 1,
                price := 6, createdAt := 0, product := some productSnapFx }] }

/-- Fixture: the Order reconstructed from rowFx2 by GetOrders. -/
def orderFx2 : Order :=
  { id := 2, userID := 7, total := 5, status := "pending", address := "a",
    createdAt := 2,
    items := [{ id := 21, orderID := 2, productID := 1, quantity := 1,
                price := 5, createdAt := 0, product := some productSnapFx }] }

/-- Fixture row: an order with zero order items, as the LEFT JOIN delivers it
(every order-item and product column NULL). -/
def rowFxNoItem : RawRow :=
  { oId := 3, oUserId := 7, oTotal := 0, oStatus := "pending", oAddress := "a",
    oCreatedAt := 1, itemId := none, oiOrderId := none, oiProductId := none,
    oiQuantity := none, oiPrice := none, pId := none, pName := none,
    pDescription := none, pImage := none, pPrice := none, pQuantity := none,
    pCreatedAt := none }

/-- Fixture row: an order item whose referenced product was deleted (item
columns present, product columns NULL). -/
def rowFxNoProduct : RawRow :=
  { oId := 4, oUserId := 7, oTotal := 6, oStatus := "pending", oAddress := "a",
    oCreatedAt := 1, itemId := some 41, oiOrderId := some 4,
    oiProductId := some 9, oiQuantity := some 1, oiPrice := some 6,
    pId := none, pName := none, pDescription := none, pImage := none,
    pPrice := none, pQuantity := none, pCreatedAt := none }

/-! Helper lemmas about the embedded functions. -/

lemma checkItemsAux_ok (products : List Product) :
    ∀ (items : List CartItem) (acc t : Rat),
      checkItemsAux products acc items = .ok t →
      t = acc + cartTotalSpec products items := by
  intro items
  induction items with
  | nil =>
      intro acc t h
      simp only [checkItemsAux] at h
      cases h
      simp [cartTotalSpec]
  | cons item rest ih =>
      intro acc t h
      simp only [checkItemsAux] at h
      cases hl : productMapLookup products item.productID with
      | none => rw [hl] at h; cases h
      | some product =>
          rw [hl] at h
          by_cases hq : product.quantity < item.quantity
          · simp [hq] at h
          · simp only [hq, if_neg, if_false] at h
            have := ih _ _ h
            rw [this]
            simp [cartTotalSpec, hl]
            ring

lemma checkItemsAux_insufficient (products : List Product) :
    ∀ (pre : List CartItem) (bad : CartItem) (rest : List CartItem)
      (acc : Rat) (p : Product),
      (∀ it ∈ pre, ∃ q, productMapLookup products it.productID = some q ∧
        it.quantity ≤ q.quantity) →
      productMapLookup products bad.productID = some p →
      p.quantity < bad.quantity →
      checkItemsAux products acc (pre ++ bad :: rest) =
        .error (400, "insufficient quantity for product " ++
          toString bad.productID) := by
  intro pre
  induction pre with
  | nil =>
      intro bad rest acc p hpre hbad hq
      simp [checkItemsAux, hbad, hq]
  | cons it pre ih =>
      intro bad rest acc p hpre hbad hq
      obtain ⟨q, hlk, hle⟩ := hpre it (by simp)
      have hnot : ¬ (q.quantity < it.quantity) := not_lt.mpr hle
      simp only [List.cons_append, checkItemsAux, hlk]
      rw [if_neg hnot]
      exact ih bad rest _ p (fun x hx => hpre x (by simp [hx])) hbad hq

lemma checkItemsAux_error_form (products : List Product) :
    ∀ (items : List CartItem) (acc : Rat) (es : Nat × String),
      (∀ it ∈ items, (productMapLookup products it.productID).isSome) →
      checkItemsAux products acc items = .error es →
      ∃ pid : Int, es =
        (400, "insufficient quantity for product " ++ toString pid) := by
  intro items
  induction items with
  | nil => intro acc es _ h; simp [checkItemsAux] at h
  | cons it rest ih =>
      intro acc es hfound h
      have hsome := hfound it (by simp)
      cases hl : productMapLookup products it.productID with
      | none => rw [hl] at hsome; simp at hsome
      | some product =>
          simp only [checkItemsAux, hl] at h
          by_cases hq : product.quantity < it.quantity
          · rw [if_pos hq] at h
            exact ⟨it.productID, by cases h; rfl⟩
          · rw [if_neg hq] at h
            exact ih _ es (fun x hx => hfound x (by simp [hx])) h

lemma itemsLoop_fail (products : List Product) (orderID : Int) :
    ∀ (k : Nat) (items : List CartItem) (ts : List (Option String))
      (e : String),
      k < items.length →
      itemsLoop products orderID items (List.replicate k none ++ some e :: ts) =
        (some e, (items.take k).map
          (fun item => .insertOrderItem (mkOrderItem products orderID item))) := by
  intro k
  induction k with
  | zero =>
      intro items ts e hk
      cases items with
      | nil => simp at hk
      | cons it rest => simp [itemsLoop]
  | succ k ih =>
      intro items ts e hk
      cases items with
      | nil => simp at hk
      | cons it rest =>
          simp only [List.replicate, List.cons_append, itemsLoop, List.headD,
            List.tail_cons]
          rw [ih rest ts e (by simpa using hk)]
          simp [List.take]

lemma itemsLoop_none (products : List Product) (orderID : Int) :
    ∀ (items : List CartItem) (outs : List (Option String))
      (effs : List Effect),
      itemsLoop products orderID items outs = (none, effs) →
      effs = items.map
        (fun item => .insertOrderItem (mkOrderItem products orderID item)) := by
  intro items
  induction items with
  | nil =>
      intro outs effs h
      simp only [itemsLoop, Prod.mk.injEq] at h
      simp [← h.2]
  | cons it rest ih =>
      intro outs effs h
      simp only [itemsLoop] at h
      cases ho : outs.headD none with
      | some e => rw [ho] at h; simp at h
      | none =>
          rw [ho] at h
          cases hr : itemsLoop products orderID rest outs.tail with
          | mk fst reffs =>
            rw [hr] at h
            simp only [Prod.mk.injEq] at h
            obtain ⟨hf, he⟩ := h
            subst hf
            rw [← he]
            simp [ih outs.tail reffs hr]

lemma map_id_filter (catalog : List Product) (q : Int → Bool) :
    (catalog.filter (fun p => q p.id)).map Product.id =
      (catalog.map Product.id).filter q := by
  induction catalog with
  | nil => rfl
  | cons a t ih => by_cases h : q a.id <;> simp [List.filter_cons, h, ih]

lemma getProducts_length_iff (catalog : List Product) (ids : List Int)
    (hnd : (catalog.map Product.id).Nodup) :
    ((GetProductsByIDs catalog ids).length = ids.length ↔
      ids.Nodup ∧ ∀ i ∈ ids, i ∈ catalog.map Product.id) := by
  by_cases hemp : ids.isEmpty
  · have : ids = [] := List.isEmpty_iff.mp hemp
    subst this
    simp [GetProductsByIDs]
  · have hA : (GetProductsByIDs catalog ids).length =
        ((catalog.map Product.id).filter (fun i => decide (i ∈ ids))).length := by
      rw [GetProductsByIDs, if_neg hemp,
        ← map_id_filter catalog (fun i => decide (i ∈ ids)), List.length_map]
    have hAnd : ((catalog.map Product.id).filter
        (fun i => decide (i ∈ ids))).Nodup := hnd.filter _
    have hBnd : (ids.dedup.filter
        (fun i => decide (i ∈ catalog.map Product.id))).Nodup :=
      (List.nodup_dedup ids).filter _
    have hperm : ((catalog.map Product.id).filter
        (fun i => decide (i ∈ ids))).Perm
        (ids.dedup.filter (fun i => decide (i ∈ catalog.map Product.id))) := by
      rw [List.perm_ext_iff_of_nodup hAnd hBnd]
      intro a
      simp only [List.mem_filter, List.mem_dedup, decide_eq_true_eq]
      tauto
    have hAB := hperm.length_eq
    have hB_le : (ids.dedup.filter
        (fun i => decide (i ∈ catalog.map Product.id))).length ≤
        ids.dedup.length := List.length_filter_le _ _
    have hd_le : ids.dedup.length ≤ ids.length :=
      (List.dedup_sublist ids).length_le
    constructor
    · intro hL
      have hAlen : ((catalog.map Product.id).filter
          (fun i => decide (i ∈ ids))).length = ids.length := by
        rw [← hA]; exact hL
      have hdlen : ids.dedup.length = ids.length := by omega
      have hded : ids.dedup = ids :=
        (List.dedup_sublist ids).eq_of_length hdlen
      have hnodup : ids.Nodup := List.dedup_eq_self.mp hded
      have hBlen : (ids.dedup.filter
          (fun i => decide (i ∈ catalog.map Product.id))).length =
          ids.dedup.length := by omega
      have hBfull := (List.filter_sublist ids.dedup).eq_of_length hBlen
      refine ⟨hnodup, fun i hi => ?_⟩
      have := List.filter_eq_self.mp hBfull i (List.mem_dedup.mpr hi)
      simpa using this
    · rintro ⟨hnodup, hall⟩
      have hded : ids.dedup = ids := List.dedup_eq_self.mpr hnodup
      have hBfull : ids.dedup.filter
          (fun i => decide (i ∈ catalog.map Product.id)) = ids := by
        rw [hded]
        apply List.filter_eq_self.mpr
        intro a ha
        simpa using hall a ha
      rw [hA, hAB, hBfull]

lemma productMapLookup_isSome (products : List Product) (pid : Int)
    (h : ∃ p ∈ products, p.id = pid) :
    (productMapLookup products pid).isSome := by
  rw [productMapLookup, List.find?_isSome]
  obtain ⟨p, hp, hid⟩ := h
  exact ⟨p, List.mem_reverse.mpr hp, by simp [hid]⟩

lemma insufficient_msg_ne (pid : Int) :
    ("insufficient quantity for product " ++ toString pid) ≠
      "one or more products not found" := by
  intro h
  have hlen := congrArg String.length h
  rw [String.length_append] at hlen
  have h1 : ("insufficient quantity for product ").length = 34 := by decide
  have h2 : ("one or more products not found").length = 30 := by decide
  omega

/-! Claim theorems. -/

/-- C1: whenever handleCheckout answers 201 with an order, that order's total
equals the sum, over the cart items in input order, of the matching product's
price (from the products fetched during this request) times the requested
quantity; its status is "pending", its user id is the authenticated caller's,
and its address is the request's address. -/
theorem checkout_success_postcondition
    (cart : CartCheckoutPayload) (catalog : List Product) (sb : StoreBehavior)
    (now uid : Int) (msg : String) (o : Order) (log : List Effect)
    (h : handleCheckout (.ok uid) cart catalog sb now =
      (⟨201, .jsonSuccess msg o⟩, log)) :
    o.total = cartTotalSpec
        (GetProductsByIDs catalog (cart.items.map (fun item => item.productID)))
        cart.items
      ∧ o.status = "pending" ∧ o.userID = uid ∧ o.address = cart.address := by
  cases hv : validateStruct cart with
  | some e => simp [handleCheckout, checkout, hv] at h
  | none =>
  cases hg : sb.getProductsErr with
  | some e => simp [handleCheckout, checkout, hv, hg] at h
  | none =>
  by_cases hlen : (GetProductsByIDs catalog
      (cart.items.map fun item => item.productID)).length =
      (cart.items.map fun item => item.productID).length
  case neg =>
    simp only [handleCheckout, checkout, hv, hg] at h
    rw [if_pos hlen] at h
    simp at h
  case pos =>
  simp only [handleCheckout, checkout, hv, hg] at h
  rw [if_neg (fun hc => hc hlen)] at h
  cases hchk : checkItemsAux
      (GetProductsByIDs catalog (cart.items.map fun item => item.productID))
      0 cart.items with
  | error es => simp only [hchk] at h; simp at h
  | ok total =>
  simp only [hchk] at h
  cases hco : sb.createOrderResult with
  | error e => simp only [hco] at h; simp at h
  | ok oid =>
  simp only [hco] at h
  cases hloop : itemsLoop
      (GetProductsByIDs catalog (cart.items.map fun item => item.productID))
      oid cart.items sb.itemOutcomes with
  | mk fst effs =>
  cases fst with
  | some e => simp only [hloop] at h; simp at h
  | none =>
    simp only [hloop] at h
    have hbody := congrArg Response.body (congrArg Prod.fst h)
    injection hbody with hmsg horder
    subst horder
    refine ⟨?_, rfl, rfl, rfl⟩
    have := checkItemsAux_ok
      (GetProductsByIDs catalog (cart.items.map fun item => item.productID))
      cart.items 0 total hchk
    simpa using this

/-- Witness for C1: the fixture checkout (product 1 priced 10, quantity 2)
returns 201 with total 20, status "pending", user 7, address "addr". -/
theorem checkout_success_postcondition_witness :
    handleCheckout (.ok 7) cartFx [productFx] sbOkFx 0 =
      (⟨201, .jsonSuccess "order created successfully" orderFx⟩,
       [.readProducts [1], .insertOrder orderFx,
        .insertOrderItem { id := 0, orderID := 42, productID := 1,
                           quantity := 2, price := 10, createdAt := 0,
                           product := none }]) ∧
    (orderFx.total = cartTotalSpec
        (GetProductsByIDs [productFx]
          (cartFx.items.map (fun item => item.productID))) cartFx.items
      ∧ orderFx.status = "pending" ∧ orderFx.userID = 7
      ∧ orderFx.address = "addr") := by
  have hrun : handleCheckout (.ok 7) cartFx [productFx] sbOkFx 0 =
      (⟨201, .jsonSuccess "order created successfully" orderFx⟩,
       [.readProducts [1], .insertOrder orderFx,
        .insertOrderItem { id := 0, orderID := 42, productID := 1,
                           quantity := 2, price := 10, createdAt := 0,
                           product := none }]) := by
    norm_num [handleCheckout, checkout, validateStruct, GetProductsByIDs,
      productMapLookup, checkItemsAux, itemsLoop, mkOrderItem, productFx,
      sbOkFx, zeroProduct, cartFx, orderFx]
    rfl
  exact ⟨hrun,
    checkout_success_postcondition cartFx [productFx] sbOkFx 0 7
      "order created successfully" orderFx _ hrun⟩

/-- C2 counterexample: a cart that references the same existing product twice
(stock amply sufficient) does not pass the product-count check; the handler
answers 400 "one or more products not found" because it collects one id per
cart item without deduplication and compares against the number of fetched
rows. -/
theorem checkout_duplicate_items_rejected :
    ((1 : Int) ∈ [productFx].map Product.id) ∧
    (∀ it ∈ ({ items := [{ productID := 1, quantity := 1 },
          { productID := 1, quantity := 1 }], address := "a" } :
          CartCheckoutPayload).items,
        it.quantity ≤ productFx.quantity) ∧
    handleCheckout (.ok 7)
        { items := [{ productID := 1, quantity := 1 },
                    { productID := 1, quantity := 1 }], address := "a" }
        [productFx] sbOkFx 0 =
      (⟨400, .plainText "one or more products not found"⟩,
       [.readProducts [1, 1]]) :=
  ⟨by decide, by decide, by rfl⟩

/-- C2 (amended): for a duplicate-free catalog, checkout fails with the
not-found error (HTTP 400, "one or more products not found") exactly when
some referenced product id is absent from the catalog or the cart references
some product id more than once, and on that failure no write effect has
occurred (the only effect is the catalog read). -/
theorem checkout_not_found_iff
    (cart : CartCheckoutPayload) (catalog : List Product) (sb : StoreBehavior)
    (now uid : Int)
    (hv : validateStruct cart = none)
    (hg : sb.getProductsErr = none)
    (hnd : (catalog.map Product.id).Nodup) :
    (handleCheckout (.ok uid) cart catalog sb now =
        (⟨400, .plainText "one or more products not found"⟩,
         [.readProducts (cart.items.map fun item => item.productID)]) ↔
      ¬((cart.items.map fun item => item.productID).Nodup ∧
        ∀ i ∈ cart.items.map (fun item => item.productID),
          i ∈ catalog.map Product.id)) ∧
    ([Effect.readProducts
        (cart.items.map fun item => item.productID)].filter Effect.isWrite
      = []) := by
  refine ⟨?_, rfl⟩
  rw [← getProducts_length_iff catalog _ hnd]
  by_cases hlen : (GetProductsByIDs catalog
      (cart.items.map fun item => item.productID)).length =
      (cart.items.map fun item => item.productID).length
  · refine iff_of_false ?_ (not_not_intro hlen)
    intro hres
    simp only [handleCheckout, checkout, hv, hg] at hres
    rw [if_neg (fun hc => hc hlen)] at hres
    have hfound : ∀ it ∈ cart.items, (productMapLookup
        (GetProductsByIDs catalog (cart.items.map fun item => item.productID))
        it.productID).isSome = true := by
      intro it hit
      apply productMapLookup_isSome
      obtain ⟨hnodup, hall⟩ := (getProducts_length_iff catalog _ hnd).mp hlen
      have hmem : it.productID ∈ cart.items.map (fun item => item.productID) :=
        List.mem_map.mpr ⟨it, hit, rfl⟩
      obtain ⟨p, hp, hpid⟩ := List.mem_map.mp (hall _ hmem)
      refine ⟨p, ?_, hpid⟩
      rw [GetProductsByIDs, if_neg ?_]
      · exact List.mem_filter.mpr ⟨hp, by simp [hpid, hmem]⟩
      · intro hemp
        rw [List.isEmpty_iff] at hemp
        rw [hemp] at hmem
        exact List.not_mem_nil _ hmem
    cases hchk : checkItemsAux
        (GetProductsByIDs catalog (cart.items.map fun item => item.productID))
        0 cart.items with
    | error es =>
        simp only [hchk] at hres
        obtain ⟨pid, hpid⟩ := checkItemsAux_error_form _ cart.items 0 es
          hfound hchk
        have hb := congrArg (fun r => r.1.body) hres
        rw [hpid] at hb
        simp only at hb
        injection hb with hmsg
        exact insufficient_msg_ne pid hmsg
    | ok total =>
        simp only [hchk] at hres
        cases hco : sb.createOrderResult with
        | error e => simp only [hco] at hres; simp at hres
        | ok oid =>
            simp only [hco] at hres
            cases hloop : itemsLoop
                (GetProductsByIDs catalog
                  (cart.items.map fun item => item.productID))
                oid cart.items sb.itemOutcomes with
            | mk fst effs =>
            cases fst with
            | some e => simp only [hloop] at hres; simp at hres
            | none => simp only [hloop] at hres; simp at hres
  · refine iff_of_true ?_ hlen
    simp only [handleCheckout, checkout, hv, hg]
    rw [if_pos hlen]

/-- Witness for C2's amended theorem, at the duplicate-reference cart. -/
theorem checkout_not_found_iff_witness :
    (handleCheckout (.ok 7)
        { items := [{ productID := 1, quantity := 1 },
                    { productID := 1, quantity := 1 }], address := "a" }
        [productFx] sbOkFx 0 =
        (⟨400, .plainText "one or more products not found"⟩,
         [.readProducts [1, 1]]) ↔
      ¬(([1, 1] : List Int).Nodup ∧
        ∀ i ∈ ([1, 1] : List Int), i ∈ [productFx].map Product.id)) ∧
    ([Effect.readProducts ([1, 1] : List Int)].filter Effect.isWrite = []) := by
  have := checkout_not_found_iff
    { items := [{ productID := 1, quantity := 1 },
                { productID := 1, quantity := 1 }], address := "a" }
    [productFx] sbOkFx 0 7 rfl rfl (by decide)
  simpa using this

/-- C3: GetOrders on two orders delivered by the query in creation-time
descending order, folded through the keyed map and converted to a slice in a
map-iteration order that visits the older order first, returns a list that is
no longer sorted by creation time descending: the final conversion does not
re-sort, so the query's ORDER BY is lost. -/
theorem getOrders_output_not_sorted :
    rowsSortedByQuery [rowFx2, rowFx1] = true ∧
    Except.map (fun m => m.map Prod.fst) (foldRows [rowFx2, rowFx1] []) =
      .ok [(2 : Int), 1] ∧
    ([1, 2] : List Int).Perm [2, 1] ∧
    GetOrders [rowFx2, rowFx1] [1, 2] = .ok [orderFx1, orderFx2] ∧
    isSortedOrders [orderFx1, orderFx2] = false :=
  ⟨rfl, rfl, by decide, rfl, rfl⟩

/-- C4 counterexample: a successful checkout of a one-item cart answers 201
with an order whose Items collection is empty, even though one order item was
persisted; the handler never attaches the created items to the response
order. -/
theorem checkout_response_items_not_populated :
    cartFx.items.length = 1 ∧
    handleCheckout (.ok 7) cartFx [productFx] sbOkFx 0 =
      (⟨201, .jsonSuccess "order created successfully" orderFx⟩,
       [.readProducts [1], .insertOrder orderFx,
        .insertOrderItem { id := 0, orderID := 42, productID := 1,
                           quantity := 2, price := 10, createdAt := 0,
                           product := none }]) ∧
    orderFx.items = [] := by
  refine ⟨rfl, ?_, rfl⟩
  norm_num [handleCheckout, checkout, validateStruct, GetProductsByIDs,
    productMapLookup, checkItemsAux, itemsLoop, mkOrderItem, productFx,
    sbOkFx, zeroProduct, cartFx, orderFx]
  rfl

/-- C4 (amended): on every successful checkout the response order's Items
collection is empty, while the persisted order-item inserts are exactly one
per cart item, each carrying the new order id, the product id, the requested
quantity and the captured price. -/
theorem checkout_success_items
    (cart : CartCheckoutPayload) (catalog : List Product) (sb : StoreBehavior)
    (now uid : Int) (msg : String) (o : Order) (log : List Effect)
    (h : handleCheckout (.ok uid) cart catalog sb now =
      (⟨201, .jsonSuccess msg o⟩, log)) :
    o.items = [] ∧
    log.filter Effect.isItemInsert =
      cart.items.map (fun item => .insertOrderItem (mkOrderItem
        (GetProductsByIDs catalog (cart.items.map fun item => item.productID))
        o.id item)) := by
  cases hv : validateStruct cart with
  | some e => simp [handleCheckout, checkout, hv] at h
  | none =>
  cases hg : sb.getProductsErr with
  | some e => simp [handleCheckout, checkout, hv, hg] at h
  | none =>
  by_cases hlen : (GetProductsByIDs catalog
      (cart.items.map fun item => item.productID)).length =
      (cart.items.map fun item => item.productID).length
  case neg =>
    simp only [handleCheckout, checkout, hv, hg] at h
    rw [if_pos hlen] at h
    simp at h
  case pos =>
  simp only [handleCheckout, checkout, hv, hg] at h
  rw [if_neg (fun hc => hc hlen)] at h
  cases hchk : checkItemsAux
      (GetProductsByIDs catalog (cart.items.map fun item => item.productID))
      0 cart.items with
  | error es => simp only [hchk] at h; simp at h
  | ok total =>
  simp only [hchk] at h
  cases hco : sb.createOrderResult with
  | error e => simp only [hco] at h; simp at h
  | ok oid =>
  simp only [hco] at h
  cases hloop : itemsLoop
      (GetProductsByIDs catalog (cart.items.map fun item => item.productID))
      oid cart.items sb.itemOutcomes with
  | mk fst effs =>
  cases fst with
  | some e => simp only [hloop] at h; simp at h
  | none =>
    simp only [hloop] at h
    have heffs := itemsLoop_none
      (GetProductsByIDs catalog (cart.items.map fun item => item.productID))
      oid cart.items sb.itemOutcomes effs hloop
    have hbody := congrArg Response.body (congrArg Prod.fst h)
    injection hbody with hmsg horder
    subst horder
    have hlog := congrArg Prod.snd h
    simp only at hlog
    rw [← hlog]
    refine ⟨rfl, ?_⟩
    rw [heffs]
    simp only [List.filter, Effect.isItemInsert, List.filter_append]
    rw [List.filter_eq_self.mpr]
    · simp [Effect.isItemInsert]
    · intro a ha
      obtain ⟨item, -, hitem⟩ := List.mem_map.mp ha
      rw [← hitem]
      rfl

/-- Witness for C4's amended theorem at the fixture checkout. -/
theorem checkout_success_items_witness :
    handleCheckout (.ok 7) cartFx [productFx] sbOkFx 0 =
      (⟨201, .jsonSuccess "order created successfully" orderFx⟩,
       [.readProducts [1], .insertOrder orderFx,
        .insertOrderItem { id := 0, orderID := 42, productID := 1,
                           quantity := 2, price := 10, createdAt := 0,
                           product := none }]) ∧
    (orderFx.items = [] ∧
      ([Effect.readProducts [1], .insertOrder orderFx,
        .insertOrderItem { id := 0, orderID := 42, productID := 1,
                           quantity := 2, price := 10, createdAt := 0,
                           product := none }].filter Effect.isItemInsert =
        cartFx.items.map (fun item => .insertOrderItem (mkOrderItem
          (GetProductsByIDs [productFx]
            (cartFx.items.map fun item => item.productID))
          orderFx.id item)))) := by
  have hrun : handleCheckout (.ok 7) cartFx [productFx] sbOkFx 0 =
      (⟨201, .jsonSuccess "order created successfully" orderFx⟩,
       [.readProducts [1], .insertOrder orderFx,
        .insertOrderItem { id := 0, orderID := 42, productID := 1,
                           quantity := 2, price := 10, createdAt := 0,
                           product := none }]) := by
    norm_num [handleCheckout, checkout, validateStruct, GetProductsByIDs,
      productMapLookup, checkItemsAux, itemsLoop, mkOrderItem, productFx,
      sbOkFx, zeroProduct, cartFx, orderFx]
    rfl
  exact ⟨hrun, checkout_success_items cartFx [productFx] sbOkFx 0 7
    "order created successfully" orderFx _ hrun⟩

/-- C5: when the cart splits as pre ++ bad :: rest with every earlier item
within stock and bad's requested quantity above its product's available
quantity, checkout fails with HTTP 400 and the message "insufficient quantity
for product <id>" naming the offending product, and the only effect performed
is the catalog read — zero database writes. -/
theorem checkout_insufficient_quantity
    (cart : CartCheckoutPayload) (catalog : List Product) (sb : StoreBehavior)
    (now uid : Int) (pre rest : List CartItem) (bad : CartItem) (p : Product)
    (hv : validateStruct cart = none)
    (hg : sb.getProductsErr = none)
    (hlen : (GetProductsByIDs catalog
      (cart.items.map fun item => item.productID)).length =
      (cart.items.map fun item => item.productID).length)
    (hsplit : cart.items = pre ++ bad :: rest)
    (hpre : ∀ it ∈ pre, ∃ q, productMapLookup
      (GetProductsByIDs catalog (cart.items.map fun item => item.productID))
      it.productID = some q ∧ it.quantity ≤ q.quantity)
    (hbad : productMapLookup
      (GetProductsByIDs catalog (cart.items.map fun item => item.productID))
      bad.productID = some p)
    (hq : p.quantity < bad.quantity) :
    handleCheckout (.ok uid) cart catalog sb now =
      (⟨400, .plainText ("insufficient quantity for product " ++
        toString bad.productID)⟩,
       [.readProducts (cart.items.map fun item => item.productID)]) ∧
    ([Effect.readProducts
        (cart.items.map fun item => item.productID)].filter Effect.isWrite)
      = [] := by
  have herr := checkItemsAux_insufficient
      (GetProductsByIDs catalog (cart.items.map fun item => item.productID))
      pre bad rest 0 p hpre hbad hq
  rw [← hsplit] at herr
  constructor
  · simp only [handleCheckout, checkout, hv, hg]
    rw [if_neg (fun hc => hc hlen)]
    simp only [herr]
  · rfl

/-- Witness for C5: the spec's example — product 1 with stock 5, requested
quantity 10 — fails with "insufficient quantity for product 1" and performs
no write. -/
theorem checkout_insufficient_quantity_witness :
    handleCheckout (.ok 7)
        { items := [{ productID := 1, quantity := 10 }], address := "addr" }
        [productFx] sbOkFx 0 =
      (⟨400, .plainText ("insufficient quantity for product " ++
        toString (1 : Int))⟩,
       [.readProducts [1]]) ∧
    ([Effect.readProducts [1]].filter Effect.isWrite) = [] := by
  have := checkout_insufficient_quantity
    { items := [{ productID := 1, quantity := 10 }], address := "addr" }
    [productFx] sbOkFx 0 7 [] [] { productID := 1, quantity := 10 } productFx
    rfl rfl (by rfl) rfl (by simp) (by rfl) (by decide)
  simpa using this

/-- C6: when the order header insert succeeds and the k-th order-item insert
fails, checkout stops with HTTP 500 carrying the storage error, and the
persisted effects are exactly the catalog read, the order header, and the
first k order items — nothing is rolled back. -/
theorem checkout_item_write_failure
    (cart : CartCheckoutPayload) (catalog : List Product) (sb : StoreBehavior)
    (now uid oid : Int) (total : Rat) (k : Nat) (e : String)
    (ts : List (Option String))
    (hv : validateStruct cart = none)
    (hg : sb.getProductsErr = none)
    (hlen : (GetProductsByIDs catalog
      (cart.items.map fun item => item.productID)).length =
      (cart.items.map fun item => item.productID).length)
    (hchk : checkItemsAux
      (GetProductsByIDs catalog (cart.items.map fun item => item.productID))
      0 cart.items = .ok total)
    (hco : sb.createOrderResult = .ok oid)
    (houts : sb.itemOutcomes = List.replicate k none ++ some e :: ts)
    (hk : k < cart.items.length) :
    handleCheckout (.ok uid) cart catalog sb now =
      (⟨500, .plainText e⟩,
       .readProducts (cart.items.map fun item => item.productID) ::
       .insertOrder { id := oid, userID := uid, total := total,
                      status := "pending", address := cart.address,
                      createdAt := now, items := [] } ::
       (cart.items.take k).map
         (fun item => .insertOrderItem (mkOrderItem
           (GetProductsByIDs catalog (cart.items.map fun item => item.productID))
           oid item))) := by
  simp only [handleCheckout, checkout, hv, hg]
  rw [if_neg (fun hc => hc hlen)]
  simp only [hchk, hco, houts]
  rw [itemsLoop_fail _ oid k cart.items ts e hk]
  simp

/-- Witness for C6: the only item write of the fixture checkout fails with
"disk full"; the response is 500 and the order header stays persisted. -/
theorem checkout_item_write_failure_witness :
    handleCheckout (.ok 7) cartFx [productFx]
        { getProductsErr := none, createOrderResult := .ok 9,
          itemOutcomes := [some "disk full"] } 0 =
      (⟨500, .plainText "disk full"⟩,
       .readProducts (cartFx.items.map fun item => item.productID) ::
       .insertOrder { id := 9, userID := 7, total := 20,
                      status := "pending", address := cartFx.address,
                      createdAt := 0, items := [] } ::
       (cartFx.items.take 0).map
         (fun item => .insertOrderItem (mkOrderItem
           (GetProductsByIDs [productFx]
             (cartFx.items.map fun item => item.productID)) 9 item))) := by
  have h20 : checkItemsAux
      (GetProductsByIDs [productFx] (cartFx.items.map fun item => item.productID))
      0 cartFx.items = .ok 20 := by
    norm_num [checkItemsAux, GetProductsByIDs, productMapLookup, cartFx,
      productFx]
  exact checkout_item_write_failure cartFx [productFx]
    { getProductsErr := none, createOrderResult := .ok 9,
      itemOutcomes := [some "disk full"] } 0 7 9 20 0 "disk full" []
    rfl rfl (by rfl) h20 rfl rfl (by decide)

/-- C7: a joined row for an order with zero order items (null order-item
columns) makes GetOrders fail with the database/sql NULL-conversion error
instead of returning the order with an empty Items collection, while a row
whose product columns are null (product deleted) succeeds with an absent
product snapshot. -/
theorem getOrders_null_columns :
    GetOrders [rowFxNoItem] [3] =
      .error "sql: converting NULL to int is unsupported" ∧
    GetOrders [rowFxNoProduct] [4] =
      .ok [{ id := 4, userID := 7, total := 6, status := "pending",
             address := "a", createdAt := 1,
             items := [{ id := 41, orderID := 4, productID := 9,
                         quantity := 1, price := 6, createdAt := 0,
                         product := none }] }] :=
  ⟨rfl, rfl⟩

/-- C8: every error of the order endpoints is written with http.Error, i.e. a
plain-text body rather than the JSON object with a single error field that
utils.WriteError would produce; the status codes are 401 for authentication,
400 for validation and not-found, and 500 for storage failures. -/
theorem order_endpoint_errors_plaintext :
    handleCheckout (.error "authorization header is required") cartFx
        [productFx] sbOkFx 0 =
      (⟨401, .plainText "authorization header is required"⟩, []) ∧
    handleCheckout (.ok 7) { items := [], address := "x" } [productFx]
        sbOkFx 0 =
      (⟨400,
        .plainText "Field validation for Items failed on the min tag"⟩,
       []) ∧
    handleCheckout (.ok 7)
        { items := [{ productID := 5, quantity := 1 }], address := "x" }
        [productFx] sbOkFx 0 =
      (⟨400, .plainText "one or more products not found"⟩,
       [.readProducts [5]]) ∧
    handleCheckout (.ok 7) cartFx [productFx]
        { getProductsErr := none, createOrderResult := .error "bad connection",
          itemOutcomes := [] } 0 =
      (⟨500, .plainText "bad connection"⟩, [.readProducts [1]]) ∧
    handleGetOrders (.ok 7) (.error "bad connection") =
      ⟨500, .plainText "bad connection"⟩ := by
  refine ⟨rfl, rfl, rfl, ?_, rfl⟩
  norm_num [handleCheckout, checkout, validateStruct, GetProductsByIDs,
    productMapLookup, checkItemsAux, itemsLoop, mkOrderItem, productFx,
    cartFx, zeroProduct]
  rfl

/-- C9: a checkout whose item list is empty, or whose address is empty, is
answered 400 by payload validation with no effect performed — no catalog read
and no database write. -/
theorem checkout_rejects_empty
    (uid now : Int) (cart : CartCheckoutPayload) (catalog : List Product)
    (sb : StoreBehavior)
    (h : cart.items = [] ∨ cart.address = "") :
    ∃ msg, handleCheckout (.ok uid) cart catalog sb now =
      (⟨400, .plainText msg⟩, []) := by
  rcases h with h | h
  · exact ⟨"Field validation for Items failed on the min tag",
      by simp [handleCheckout, checkout, validateStruct, h]⟩
  · by_cases hi : cart.items.isEmpty
    · exact ⟨"Field validation for Items failed on the min tag",
        by simp [handleCheckout, checkout, validateStruct, hi]⟩
    · exact ⟨"Field validation for Address failed on the required tag",
        by simp [handleCheckout, checkout, validateStruct, hi, h]⟩

/-- Witness for C9: the empty-items cart with a non-empty address is rejected
with 400 and an empty effect list. -/
theorem checkout_rejects_empty_witness :
    ∃ msg, handleCheckout (.ok 7)
        { items := [], address := "addr" } [] sbOkFx 0 =
      (⟨400, .plainText msg⟩, []) :=
  checkout_rejects_empty 7 0 { items := [], address := "addr" } [] sbOkFx
    (Or.inl rfl)

/-- C10: a single-item cart whose quantity is zero or negative passes payload
validation and the stock check (for a product with non-negative stock),
checkout succeeds with total price × quantity (zero or negative), and the
persisted order item carries the non-positive quantity. -/
theorem checkout_accepts_nonpositive_quantity
    (uid now oid : Int) (item : CartItem) (addr : String) (p : Product)
    (haddr : addr ≠ "")
    (hid : p.id = item.productID)
    (hq : item.quantity ≤ 0)
    (hstock : 0 ≤ p.quantity) :
    handleCheckout (.ok uid) { items := [item], address := addr } [p]
        { getProductsErr := none, createOrderResult := .ok oid,
          itemOutcomes := [] } now =
      (⟨201, .jsonSuccess "order created successfully"
          { id := oid, userID := uid,
            total := p.price * (item.quantity : Rat), status := "pending",
            address := addr, createdAt := now, items := [] }⟩,
       [.readProducts [item.productID],
        .insertOrder { id := oid, userID := uid,
                       total := p.price * (item.quantity : Rat),
                       status := "pending", address := addr,
                       createdAt := now, items := [] },
        .insertOrderItem { id := 0, orderID := oid, productID := p.id,
                           quantity := item.quantity, price := p.price,
                           createdAt := 0, product := none }]) := by
  have hnl : ¬ (p.quantity < item.quantity) :=
    not_lt.mpr (hq.trans hstock)
  simp [handleCheckout, checkout, validateStruct, GetProductsByIDs,
    productMapLookup, checkItemsAux, itemsLoop, mkOrderItem, haddr, hid,
    hnl]

/-- Witness for C10: quantity -5 of product 1 (stock 5) checks out with total
10 × (-5) and a persisted order item of quantity -5. -/
theorem checkout_accepts_nonpositive_quantity_witness :
    handleCheckout (.ok 7)
        { items := [{ productID := 1, quantity := -5 }], address := "a" }
        [productFx]
        { getProductsErr := none, createOrderResult := .ok 42,
          itemOutcomes := [] } 0 =
      (⟨201, .jsonSuccess "order created successfully"
          { id := 42, userID := 7,
            total := productFx.price * (((-5 : Int) : Rat)),
            status := "pending", address := "a", createdAt := 0,
            items := [] }⟩,
       [.readProducts [1],
        .insertOrder { id := 42, userID := 7,
                       total := productFx.price * (((-5 : Int) : Rat)),
                       status := "pending", address := "a", createdAt := 0,
                       items := [] },
        .insertOrderItem { id := 0, orderID := 42, productID := productFx.id,
                           quantity := -5, price := productFx.price,
                           createdAt := 0, product := none }]) :=
  checkout_accepts_nonpositive_quantity 7 0 42
    { productID := 1, quantity := -5 } "a" productFx
    (by decide) (by rfl) (by decide) (by decide)

end Gommerce
